import Mathlib

/-!
Verification of the gait onboarding repository's computational logic.

The repository holds two small Python scripts. `garbage.py` defines an
`Apple` class (attributes `color` and `size`, defaults `"red"` and
`"medium"`), a `describe` method, and a free function `add_apples` that
builds a new `Apple` from two existing ones. `onboarding.py` defines a
tutorial print helper. The specification additionally describes an
alphanumeric string validator backed by the regular expression
`^[a-zA-Z0-9]+$`; that validator is not present in the provided source
files, so it is modelled from the specification's words below.

We embed the Python code shallowly: the `Apple` class becomes a Lean
structure, `add_apples` a pure function, and object identity (needed for
the frame property) is modelled by a store of apples addressed by index.
-/

/-- The `Apple` class of `garbage.py`: two string attributes. -/
structure Apple where
  color : String
  size : String
deriving DecidableEq, Repr

/-- `Apple.__init__` with its Python default arguments
`color="red"`, `size="medium"`. -/
def Apple.init (color : String := "red") (size : String := "medium") : Apple :=
  { color := color, size := size }

/-- `Apple.describe`: the f-string `f"This is a {self.size} {self.color} apple."`. -/
def Apple.describe (self : Apple) : String :=
  "This is a " ++ self.size ++ " " ++ self.color ++ " apple."

/-- `add_apples` from `garbage.py`:
`new_color = f"{apple1.color}-{apple2.color}"`,
`new_size = "large" if apple1.size == "medium" and apple2.size == "medium"
else "extra large"`, returning `Apple(color=new_color, size=new_size)`. -/
def add_apples (apple1 apple2 : Apple) : Apple :=
  let new_color := apple1.color ++ "-" ++ apple2.color
  let new_size :=
    if apple1.size = "medium" ∧ apple2.size = "medium" then "large"
    else "extra large"
  Apple.init new_color new_size

/-- `add_apples` written in an exceptional (Except) monad, mirroring each
step of the Python body. Every operation the body performs on string-bearing
apples (attribute reads, f-string formatting, `==`, construction) is total
in Python, so no step introduces a throw site. -/
def add_applesE (apple1 apple2 : Apple) : Except String Apple := do
  let new_color := apple1.color ++ "-" ++ apple2.color
  let new_size :=
    if apple1.size = "medium" ∧ apple2.size = "medium" then "large"
    else "extra large"
  return Apple.init new_color new_size

/-- A Python heap of apple objects: object identities are indices into the
store. Used to state the frame property of `add_apples` faithfully to
Python's reference semantics. -/
def Store := List Apple

/-- Read the apple object at reference `i` (defaulting outside the store). -/
def Store.read (s : Store) (i : Nat) : Apple :=
  List.getD s i (Apple.init "" "")

/-- Calling `add_apples` on the objects referenced by `i` and `j`:
the Python call allocates one fresh `Apple` object (the `Apple(...)`
constructor call in the return statement) and returns its reference.
The store grows by that single fresh object; nothing else is written. -/
def Store.addApplesCall (s : Store) (i j : Nat) : Store × Nat :=
  (List.append s [add_apples (s.read i) (s.read j)], List.length s)

/-- Character class of the regular expression `[a-zA-Z0-9]`:
an ASCII lowercase letter, ASCII uppercase letter, or ASCII digit. -/
def isPatternChar (c : Char) : Bool :=
  ('a' ≤ c && c ≤ 'z') || ('A' ≤ c && c ≤ 'Z') || ('0' ≤ c && c ≤ '9')

/-- Anchored matcher for the pattern `X+` over a character class `p`:
the whole character list must consist of one or more characters of the
class. The empty list does not match. -/
def matchPlus (p : Char → Bool) : List Char → Bool
  | [] => false
  | [c] => p c
  | c :: c2 :: cs => p c && matchPlus p (c2 :: cs)

/-- Modelled from the spec: the pattern-validator helper function
`is_alphanumeric` described in the specification ("validates alphanumeric
strings via a regular expression", pattern requiring at least one
character, character class ASCII letters `a`–`z`, `A`–`Z` and digits
`0`–`9`) is not present in the provided source files; following the
specification's words it matches the input string against the anchored
regular expression `^[a-zA-Z0-9]+$`. -/
def is_alphanumeric (s : String) : Bool :=
  matchPlus isPatternChar s.data

/-- The size component of `add_apples`, read off the definition. -/
theorem add_apples_size_def (A B : Apple) :
    (add_apples A B).size =
      (if A.size = "medium" ∧ B.size = "medium" then "large"
       else "extra large") := rfl

/-- A concrete two-object store used by witnesses: the two apples built in
the example usage of `garbage.py`. -/
def demoStore : Store :=
  [Apple.init "red" "medium", Apple.init "green" "medium"]

/-- `matchPlus p` accepts exactly the non-empty lists all of whose
characters satisfy `p`. -/
theorem matchPlus_eq_true_iff (p : Char → Bool) (l : List Char) :
    matchPlus p l = true ↔ l ≠ [] ∧ ∀ c ∈ l, p c = true := by
  induction l with
  | nil => simp [matchPlus]
  | cons c cs ih =>
    cases cs with
    | nil => simp [matchPlus]
    | cons c2 cs2 =>
      rw [matchPlus, Bool.and_eq_true, ih]
      simp

/-- C1: for every pair of apples `A` and `B`, the size of
`add_apples A B` is the literal `"large"` exactly when both input sizes
are the literal `"medium"`, and is the literal `"extra large"` in every
other case. -/
theorem add_apples_size_rule (A B : Apple) :
    (add_apples A B).size =
      (if A.size = "medium" ∧ B.size = "medium" then "large"
       else "extra large") ∧
    ((add_apples A B).size = "large" ↔
      (A.size = "medium" ∧ B.size = "medium")) := by
  refine ⟨rfl, ?_⟩
  by_cases h : A.size = "medium" ∧ B.size = "medium" <;>
    simp [add_apples, Apple.init, h]

/-- C2: the color of `add_apples A B` is the concatenation of `A.color`,
a literal hyphen, and `B.color`. -/
theorem add_apples_color_concat (A B : Apple) :
    (add_apples A B).color = A.color ++ "-" ++ B.color := rfl

/-- C3: `is_alphanumeric` (modelled from the spec) returns `true` exactly
when the string is non-empty and every character is an ASCII letter
(`a`–`z`, `A`–`Z`) or digit (`0`–`9`); in particular it returns `false`
for the empty string and for any string containing a character outside
those ranges. -/
theorem is_alphanumeric_spec (s : String) :
    is_alphanumeric s = true ↔
      s.data ≠ [] ∧ ∀ c ∈ s.data,
        (('a' ≤ c ∧ c ≤ 'z') ∨ ('A' ≤ c ∧ c ≤ 'Z') ∨
         ('0' ≤ c ∧ c ≤ '9')) := by
  rw [is_alphanumeric, matchPlus_eq_true_iff]
  simp [isPatternChar, or_assoc]

/-- C4: constructing an `Apple` with no arguments yields color `"red"` and
size `"medium"`. -/
theorem apple_default_init :
    (Apple.init).color = "red" ∧ (Apple.init).size = "medium" :=
  ⟨rfl, rfl⟩

/-- C5: a call of `add_apples` on the objects referenced by `i` and `j`
leaves both input objects unchanged in the store and returns a freshly
allocated object whose reference is distinct from `i` and `j`, holding the
composed apple. -/
theorem addApplesCall_frame (s : Store) (i j : Nat)
    (hi : i < List.length s) (hj : j < List.length s) :
    (Store.addApplesCall s i j).1.read i = s.read i ∧
    (Store.addApplesCall s i j).1.read j = s.read j ∧
    (Store.addApplesCall s i j).2 ≠ i ∧
    (Store.addApplesCall s i j).2 ≠ j ∧
    (Store.addApplesCall s i j).1.read (Store.addApplesCall s i j).2 =
      add_apples (s.read i) (s.read j) := by
  refine ⟨?_, ?_, ?_, ?_, ?_⟩
  · simp only [Store.addApplesCall, Store.read, List.getD, List.append_eq,
      List.get?_eq_getElem?]
    rw [List.getElem?_append_left hi]
  · simp only [Store.addApplesCall, Store.read, List.getD, List.append_eq,
      List.get?_eq_getElem?]
    rw [List.getElem?_append_left hj]
  · exact fun h => absurd (h ▸ hi) (lt_irrefl _)
  · exact fun h => absurd (h ▸ hj) (lt_irrefl _)
  · simp [Store.addApplesCall, Store.read, List.getD_append_right,
      Nat.sub_self]

/-- Witness for C5 at the concrete two-object store of the example usage. -/
theorem addApplesCall_frame_witness :
    (Store.addApplesCall demoStore 0 1).1.read 0 = demoStore.read 0 ∧
    (Store.addApplesCall demoStore 0 1).1.read 1 = demoStore.read 1 ∧
    (Store.addApplesCall demoStore 0 1).2 ≠ 0 ∧
    (Store.addApplesCall demoStore 0 1).2 ≠ 1 ∧
    (Store.addApplesCall demoStore 0 1).1.read
        (Store.addApplesCall demoStore 0 1).2 =
      add_apples (demoStore.read 0) (demoStore.read 1) :=
  addApplesCall_frame demoStore 0 1 (by decide) (by decide)

/-- C6: `add_apples`, written step for step in an exceptional monad, never
reaches an error: on every pair of apples it returns `Except.ok` of the
composed apple. -/
theorem add_applesE_total (A B : Apple) :
    add_applesE A B = Except.ok (add_apples A B) := rfl

/-- C7: `add_apples` depends on nothing but the four input strings: runs
on field-equal inputs return field-equal results. -/
theorem add_apples_deterministic (A A2 B B2 : Apple)
    (hAc : A.color = A2.color) (hAs : A.size = A2.size)
    (hBc : B.color = B2.color) (hBs : B.size = B2.size) :
    (add_apples A B).color = (add_apples A2 B2).color ∧
    (add_apples A B).size = (add_apples A2 B2).size := by
  simp [add_apples, Apple.init, hAc, hAs, hBc, hBs]

/-- Witness for C7 at two syntactically different, field-equal inputs. -/
theorem add_apples_deterministic_witness :
    (add_apples (Apple.init "red" "medium") { color := "red", size := "medium" : Apple }).color =
      (add_apples { color := "red", size := "medium" : Apple } (Apple.init "red" "medium")).color ∧
    (add_apples (Apple.init "red" "medium") { color := "red", size := "medium" : Apple }).size =
      (add_apples { color := "red", size := "medium" : Apple } (Apple.init "red" "medium")).size :=
  add_apples_deterministic _ _ _ _ rfl rfl rfl rfl

/-- C8: `describe` produces exactly the fixed sentence
`"This is a " ++ size ++ " " ++ color ++ " apple."`, size before color. -/
theorem apple_describe_format (X : Apple) :
    X.describe = "This is a " ++ X.size ++ " " ++ X.color ++ " apple." :=
  rfl

/-- C9: the size of the composed apple does not depend on the order of the
arguments. -/
theorem add_apples_size_symm (A B : Apple) :
    (add_apples A B).size = (add_apples B A).size := by
  unfold add_apples Apple.init
  by_cases hA : A.size = "medium" <;> by_cases hB : B.size = "medium" <;>
    simp [hA, hB]

/-- C10: every composed apple has size `"large"` or `"extra large"` and
never `"medium"`; consequently composing two composed apples always yields
size `"extra large"`. -/
theorem add_apples_size_range (A B C D : Apple) :
    ((add_apples A B).size = "large" ∨
     (add_apples A B).size = "extra large") ∧
    (add_apples A B).size ≠ "medium" ∧
    (add_apples (add_apples A B) (add_apples C D)).size = "extra large" := by
  have hAB : (add_apples A B).size = "large" ∨
      (add_apples A B).size = "extra large" := by
    by_cases h : A.size = "medium" ∧ B.size = "medium" <;>
      simp [add_apples, Apple.init, h]
  have hCD : (add_apples C D).size = "large" ∨
      (add_apples C D).size = "extra large" := by
    by_cases h : C.size = "medium" ∧ D.size = "medium" <;>
      simp [add_apples, Apple.init, h]
  have hne : (add_apples A B).size ≠ "medium" := by
    rcases hAB with h | h <;> rw [h] <;> decide
  have hne2 : (add_apples C D).size ≠ "medium" := by
    rcases hCD with h | h <;> rw [h] <;> decide
  refine ⟨hAB, hne, ?_⟩
  have h2 : ¬ ((add_apples A B).size = "medium" ∧
      (add_apples C D).size = "medium") := fun h => hne h.1
  rw [add_apples_size_def (add_apples A B) (add_apples C D), if_neg h2]
